import Mathlib

/-!
Shallow embedding of the Kinesix gesture backend (`src/lib/src/lib.rs`) and
proofs about its gesture-classification state machine, device activation and
polling-thread shutdown logic.

Modelling conventions:
* The `f64` quantities (`swipe_x_max`, `swipe_y_max`, the per-update
  unaccelerated deltas, the pinch scale) are modelled as `ℚ`.  The Rust code
  only copies these values and compares them (`abs`, `<`, `>`); it performs no
  floating-point arithmetic on them, so on non-NaN inputs the rational model
  is exact.
* `i32` finger counts are modelled as `Int` (no arithmetic is performed on
  them, they are only passed through to the callbacks).
* FFI calls into libinput that merely fetch event payloads become fields of
  the `Event` inductive; the libinput device handle bound by
  `libinput_path_add_device` is represented by the path it is bound to.
-/

namespace Kinesix

/-- Device identity record, from `src/libkinesix/src/device.rs` (`pub struct
Device`): id, path, name, product id, vendor id. -/
structure Device where
  id : Nat
  path : String
  name : String
  product_id : Nat
  vendor_id : Nat
deriving DecidableEq, Repr

instance : Inhabited Device := ⟨⟨0, "", "", 0, 0⟩⟩

/-- Swipe directions, from `pub enum SwipeDirection` in `src/lib/src/lib.rs`. -/
inductive SwipeDirection
  | SwipeUp
  | SwipeDown
  | SwipeLeft
  | SwipeRight
  | None
deriving DecidableEq, Repr

/-- Pinch types, from `pub enum PinchType`. -/
inductive PinchType
  | PinchIn
  | PinchOut
  | None
deriving DecidableEq, Repr

/-- Per-event gesture phase, from `pub enum GestureEventState`. -/
inductive GestureEventState
  | Started
  | Ongoing
  | Finished
  | Unknown
deriving DecidableEq, Repr

/-- Ongoing gesture classification, from `pub enum GestureType`. -/
inductive GestureType
  | Swipe (direction : SwipeDirection)
  | Pinch (t : PinchType)
  | Unknown
deriving DecidableEq, Repr

/-- Gesture-relevant libinput events, carrying exactly the payloads the code
reads through the libinput accessors: the finger count on every gesture
event, the unaccelerated (dx, dy) on swipe updates, the scale on pinch
updates and the cancelled flag on end events.  `Other` stands for every
non-gesture event type (the `_` arm of `handle_gesture`). -/
inductive Event
  | GestureSwipeBegin (finger_count : Int)
  | GestureSwipeUpdate (finger_count : Int) (dx_unaccelerated dy_unaccelerated : ℚ)
  | GestureSwipeEnd (finger_count : Int) (cancelled : Bool)
  | GesturePinchBegin (finger_count : Int)
  | GesturePinchUpdate (finger_count : Int) (scale : ℚ)
  | GesturePinchEnd (finger_count : Int) (cancelled : Bool)
  | Other
deriving DecidableEq, Repr

/-- Result of `libinput_event_gesture_get_finger_count` for each event (the
code calls it on every gesture event; non-gesture events use the literal 0 of
the `_` arm of `handle_gesture`). -/
def Event.finger_count : Event → Int
  | .GestureSwipeBegin fc => fc
  | .GestureSwipeUpdate fc _ _ => fc
  | .GestureSwipeEnd fc _ => fc
  | .GesturePinchBegin fc => fc
  | .GesturePinchUpdate fc _ => fc
  | .GesturePinchEnd fc _ => fc
  | .Other => 0

/-- Result of `libinput_event_gesture_get_cancelled`.  The code only queries
it on end events (the `Finished` phase can only arise from an end event); on
other events the value is irrelevant and we return `false`. -/
def Event.cancelled : Event → Bool
  | .GestureSwipeEnd _ c => c
  | .GesturePinchEnd _ c => c
  | _ => false

/-- State of the `Input` struct in `src/lib/src/lib.rs`: the libinput device
handle currently bound via `libinput_path_add_device` (identified here by the
device path it was bound to, `none` for the null pointer), and the gesture
accumulator `swipe_x_max` / `swipe_y_max`. -/
structure Input where
  active_device : Option String
  swipe_x_max : ℚ
  swipe_y_max : ℚ
deriving DecidableEq, Repr

/-- Mutable state of `pub struct KinesixBackend` relevant to devices and
gesture classification: the `*const Device` back-pointer into
`valid_device_list` (modelled by the pointed-to `Device` value), the cached
device list, the ongoing gesture classification, and the `Input` state. -/
structure KinesixBackend where
  active_device : Option Device
  valid_device_list : List Device
  ongoing_gesture_type : GestureType
  input : Input
deriving DecidableEq, Repr

/-- Initial backend state, from `KinesixBackend::new`: null active-device
pointer, empty device list, `GestureType::Unknown`, fresh `Input` with no
bound device and a zeroed accumulator. -/
def KinesixBackend.new : KinesixBackend :=
  { active_device := none
    valid_device_list := []
    ongoing_gesture_type := .Unknown
    input := { active_device := none, swipe_x_max := 0, swipe_y_max := 0 } }

/-- Threshold for swipe classification, `const GESTURE_DELTA: f64 = 10.0`. -/
def GESTURE_DELTA : ℚ := 10

/-- Callback invocation performed by `handle_gesture`: either the swipe
delegate or the pinch delegate, with the dispatched classification and finger
count. -/
inductive DelegateCall
  | swipe (direction : SwipeDirection) (finger_count : Int)
  | pinch (t : PinchType) (finger_count : Int)
deriving DecidableEq, Repr

/-- Direction-decision block of the `GestureSwipeUpdate` arm of
`KinesixBackend::handle_swipe_gesture` (src/lib/src/lib.rs lines 437-449):
given the updated accumulator peaks, overwrite the ongoing classification
when the dominant axis crosses `GESTURE_DELTA`, otherwise keep it. -/
def classifySwipe (x_max y_max : ℚ) (g : GestureType) : GestureType :=
  if |y_max| > |x_max| then
    if y_max < -GESTURE_DELTA then .Swipe .SwipeUp
    else if y_max > GESTURE_DELTA then .Swipe .SwipeDown
    else g
  else if |x_max| > |y_max| then
    if x_max < -GESTURE_DELTA then .Swipe .SwipeLeft
    else if x_max > GESTURE_DELTA then .Swipe .SwipeRight
    else g
  else g

/-- Embedding of `KinesixBackend::handle_swipe_gesture` (lines 414-461).
Returns the updated backend together with the `(gesture_state, finger_count)`
pair the Rust function returns.  On begin/end events the accumulator is
written back unchanged, so the state component is `self` itself. -/
def handle_swipe_gesture (self : KinesixBackend) (event : Event) :
    KinesixBackend × GestureEventState × Int :=
  let finger_count := event.finger_count
  let x_max := self.input.swipe_x_max
  let y_max := self.input.swipe_y_max
  match event with
  | .GestureSwipeBegin _ => (self, .Started, finger_count)
  | .GestureSwipeUpdate _ x_current y_current =>
      let x_max1 := if |x_max| < |x_current| then x_current else x_max
      let y_max1 := if |y_max| < |y_current| then y_current else y_max
      ({ self with
          ongoing_gesture_type := classifySwipe x_max1 y_max1 self.ongoing_gesture_type
          input := { self.input with swipe_x_max := x_max1, swipe_y_max := y_max1 } },
       .Ongoing, finger_count)
  | .GestureSwipeEnd _ _ => (self, .Finished, finger_count)
  | _ => (self, .Unknown, finger_count)

/-- Embedding of `KinesixBackend::handle_pinch_gesture` (lines 463-491).
The update arm is two successive independent `if`s, exactly as in the
source: `scale > 1.0` overwrites with `PinchOut`, then `scale < 1.0`
overwrites with `PinchIn`. -/
def handle_pinch_gesture (self : KinesixBackend) (event : Event) :
    KinesixBackend × GestureEventState × Int :=
  let finger_count := event.finger_count
  match event with
  | .GesturePinchBegin _ => (self, .Started, finger_count)
  | .GesturePinchUpdate _ scale =>
      let self1 := if scale > 1 then { self with ongoing_gesture_type := .Pinch .PinchOut } else self
      let self2 := if scale < 1 then { self1 with ongoing_gesture_type := .Pinch .PinchIn } else self1
      (self2, .Ongoing, finger_count)
  | .GesturePinchEnd _ _ => (self, .Finished, finger_count)
  | _ => (self, .Unknown, finger_count)

/-- Embedding of `KinesixBackend::handle_gesture` (lines 493-582): route the
event to the swipe or pinch handler, then, if the phase is `Finished` and the
event's cancelled flag is clear, dispatch the ongoing classification to the
matching delegate and reset classification and accumulator.  Note that the
reset happens inside the `cancelled == 0` branch in the source, so a
cancelled end leaves the state untouched. -/
def handle_gesture (self : KinesixBackend) (event : Event) :
    KinesixBackend × Option DelegateCall :=
  let r :=
    match event with
    | .GestureSwipeBegin _ => handle_swipe_gesture self event
    | .GestureSwipeUpdate _ _ _ => handle_swipe_gesture self event
    | .GestureSwipeEnd _ _ => handle_swipe_gesture self event
    | .GesturePinchBegin _ => handle_pinch_gesture self event
    | .GesturePinchUpdate _ _ => handle_pinch_gesture self event
    | .GesturePinchEnd _ _ => handle_pinch_gesture self event
    | .Other => (self, .Unknown, (0 : Int))
  let self1 := r.1
  let gesture_state := r.2.1
  let finger_count := r.2.2
  if gesture_state = .Finished then
    if event.cancelled = false then
      let reset : KinesixBackend :=
        { self1 with
            ongoing_gesture_type := .Unknown
            input := { self1.input with swipe_x_max := 0, swipe_y_max := 0 } }
      match self1.ongoing_gesture_type with
      | .Swipe swipe_direction => (reset, some (.swipe swipe_direction finger_count))
      | .Pinch pinch_type => (reset, some (.pinch pinch_type finger_count))
      | .Unknown => (reset, none)
    else (self1, none)
  else (self1, none)

/-- Process a list of events in order through `handle_gesture` (as the
main-loop bridge `on_event_ready` drains the libinput queue), collecting the
delegate calls in dispatch order. -/
def processGestures (self : KinesixBackend) : List Event → KinesixBackend × List DelegateCall
  | [] => (self, [])
  | e :: rest =>
      let r := handle_gesture self e
      let rr := processGestures r.1 rest
      (rr.1, match r.2 with | some d => d :: rr.2 | none => rr.2)

/-- Lexicographic comparison of character sequences.  Rust's `Ord::cmp` for
`String` compares the UTF-8 bytes lexicographically, which coincides with
lexicographic comparison of the code points. -/
def strCmp : List Char → List Char → Ordering
  | [], [] => .eq
  | [], _ :: _ => .lt
  | _ :: _, [] => .gt
  | a :: as, b :: bs =>
      if a < b then .lt else if b < a then .gt else strCmp as bs

/-- Rust's `Ord::cmp` for the device-path strings
(`device.path.cmp(&probe.path)`). -/
def pathCmp (a b : String) : Ordering := strCmp a.data b.data

/-- Loop of Rust's `slice::binary_search_by`: half-open window
`[left, right)`, probe the midpoint, narrow on `Less`/`Greater`, return
`Ok(mid)` on `Equal`, `Err(left)` when the window is empty.  The structural
fuel argument starts at `length + 1`, which bounds the iteration count since
the window shrinks by at least one element per step, so it is never
exhausted. -/
def binary_search_loop (f : Device → Ordering) (s : List Device) :
    Nat → Nat → Nat → Except Nat Nat
  | 0, left, _ => .error left
  | fuel + 1, left, right =>
      if left < right then
        match f (s.getD (left + (right - left) / 2) default) with
        | .lt => binary_search_loop f s fuel (left + (right - left) / 2 + 1) right
        | .gt => binary_search_loop f s fuel left (left + (right - left) / 2)
        | .eq => .ok (left + (right - left) / 2)
      else .error left

/-- Rust's `slice::binary_search_by` over the device list.  Note the call in
`set_active_device` passes the comparator `|probe| device.path.cmp(&probe.path)`,
which compares the *target* against the probe — the reverse of the
orientation binary search expects — and `valid_device_list` is filled in
directory-read order, never sorted. -/
def binary_search_by (f : Device → Ordering) (s : List Device) : Except Nat Nat :=
  binary_search_loop f s (s.length + 1) 0 s.length

/-- Embedding of `KinesixBackend::set_active_device` (lines 378-412): return
early if the argument's path equals the active device's path; look the
argument up with `binary_search_by (|probe| device.path.cmp(&probe.path))`
and return silently on `Err`; otherwise unbind and release the previously
bound libinput handle (if any), bind a new handle for the argument's path
(`libinput_path_add_device` modelled as succeeding) and point
`active_device` at the found list entry. -/
def set_active_device (self : KinesixBackend) (device : Device) : KinesixBackend :=
  if self.active_device.map Device.path = some device.path then self
  else
    match binary_search_by (fun probe => pathCmp device.path probe.path) self.valid_device_list with
    | .error _ => self
    | .ok i =>
        let self1 : KinesixBackend :=
          match self.input.active_device with
          | some _ => { self with input := { self.input with active_device := none } }
          | none => self
        { self1 with
            input := { self1.input with active_device := some device.path }
            active_device := self1.valid_device_list.get? i }

/-- State of `pub struct EventPollerThread` plus the liveness of the spawned
poller thread: `handle` is the `Option<JoinHandle>`, `cancelation_requested`
the flag, and `receiver_alive` models whether the spawned thread — which owns
the receiving half of the `cancelation_token` mpsc channel — is still
running.  `Sender::send` succeeds exactly when the receiver has not been
dropped, and the thread drops it when its loop observes a `true` cancellation
message and exits. -/
structure EventPollerThread where
  handle : Option Unit
  cancelation_requested : Bool
  receiver_alive : Bool
deriving DecidableEq, Repr

/-- Poller-thread state created by `KinesixBackend::start_polling` (lines
608-653): a live join handle, no cancellation requested, spawned thread
running (receiver alive). -/
def start_polling_thread : EventPollerThread :=
  { handle := some (), cancelation_requested := false, receiver_alive := true }

/-- Embedding of `KinesixBackend::stop_polling` (lines 655-662) acting on the
`event_poller_thread: Option<EventPollerThread>` field, which the function
never clears back to `None`.  It sets `cancelation_requested`, performs
`cancelation_token.send(true).expect("Failed to set cancelation token for
poller thread")` — which panics (modelled as `Except.error` carrying the
expect message) when the poller thread has already exited and dropped the
receiver — and otherwise lets the thread receive the message and exit, then
joins it via `EventPollerThread::join` (lines 259-265), whose
`Option::take` leaves `handle = None`. -/
def stop_polling (s : Option EventPollerThread) : Except String (Option EventPollerThread) :=
  match s with
  | none => .ok none
  | some t =>
      let t1 := { t with cancelation_requested := true }
      if t1.receiver_alive then
        .ok (some { t1 with handle := none, receiver_alive := false })
      else
        .error "Failed to set cancelation token for poller thread"

/-- Swipe gesture event built from a `(finger_count, dx, dy)` triple; used to
state properties over sequences consisting only of swipe updates. -/
def mkSwipeUpdate (u : Int × ℚ × ℚ) : Event :=
  .GestureSwipeUpdate u.1 u.2.1 u.2.2

/-- Consistency of the ongoing classification with the accumulator: whenever
the classification is a swipe direction, re-running the direction decision on
the current accumulator peaks reproduces it.  This holds in every state the
classifier can reach and is what makes a set direction stick. -/
def SwipeSticky (self : KinesixBackend) : Prop :=
  ∀ d : SwipeDirection, self.ongoing_gesture_type = .Swipe d →
    classifySwipe self.input.swipe_x_max self.input.swipe_y_max (.Swipe d) = .Swipe d

/-- Concrete gesture device with the lexicographically larger path. -/
def deviceA : Device :=
  { id := 1, path := "/dev/input/event2", name := "Touchpad A", product_id := 10, vendor_id := 20 }

/-- Concrete gesture device with the lexicographically smaller path. -/
def deviceB : Device :=
  { id := 2, path := "/dev/input/event1", name := "Touchpad B", product_id := 11, vendor_id := 21 }

/-- Concrete device whose path does not occur in `exampleBackend`'s list. -/
def deviceC : Device :=
  { id := 3, path := "/dev/input/event3", name := "Touchpad C", product_id := 12, vendor_id := 22 }

/-- Backend whose cached valid device list holds `deviceB` and `deviceA`, in
ascending path order — one of the directory-read orders
`get_valid_device_list` can produce, since it never sorts the list. -/
def exampleBackend : KinesixBackend :=
  { KinesixBackend.new with valid_device_list := [deviceB, deviceA] }

/-- The example backend after a successful activation of `deviceA`. -/
def exampleBackendActiveA : KinesixBackend :=
  { exampleBackend with
      active_device := some deviceA
      input := { exampleBackend.input with active_device := some deviceA.path } }

/-! Basic lemmas about the comparator. -/

theorem strCmp_eq_iff : ∀ (a b : List Char), strCmp a b = .eq ↔ a = b := by
  intro a
  induction a with
  | nil => intro b; cases b <;> simp [strCmp]
  | cons x as ih =>
      intro b
      cases b with
      | nil => simp [strCmp]
      | cons y bs =>
          simp only [strCmp]
          split_ifs with h1 h2
          · constructor
            · intro h; exact nomatch h
            · intro h; cases h; exact absurd h1 (lt_irrefl _)
          · constructor
            · intro h; exact nomatch h
            · intro h; cases h; exact absurd h2 (lt_irrefl _)
          · have hxy : x = y := le_antisymm (not_lt.mp h2) (not_lt.mp h1)
            subst hxy
            rw [ih bs]
            simp

theorem pathCmp_eq_iff (a b : String) : pathCmp a b = .eq ↔ a = b := by
  cases a with | mk la => ?_
  cases b with | mk lb => ?_
  rw [pathCmp, strCmp_eq_iff]
  exact ⟨fun h => congrArg String.mk h, fun h => congrArg String.data h⟩

/-! Characterizations of `handle_gesture` on each event shape. -/

theorem handle_gesture_swipe_begin (self : KinesixBackend) (fc : Int) :
    handle_gesture self (.GestureSwipeBegin fc) = (self, none) := rfl

theorem handle_gesture_pinch_begin (self : KinesixBackend) (fc : Int) :
    handle_gesture self (.GesturePinchBegin fc) = (self, none) := rfl

theorem handle_gesture_other (self : KinesixBackend) :
    handle_gesture self .Other = (self, none) := rfl

theorem handle_gesture_swipe_update (self : KinesixBackend) (fc : Int) (dx dy : ℚ) :
    handle_gesture self (.GestureSwipeUpdate fc dx dy) =
      ({ self with
          ongoing_gesture_type := classifySwipe
            (if |self.input.swipe_x_max| < |dx| then dx else self.input.swipe_x_max)
            (if |self.input.swipe_y_max| < |dy| then dy else self.input.swipe_y_max)
            self.ongoing_gesture_type
          input := { self.input with
            swipe_x_max := if |self.input.swipe_x_max| < |dx| then dx else self.input.swipe_x_max
            swipe_y_max := if |self.input.swipe_y_max| < |dy| then dy else self.input.swipe_y_max } },
       none) := rfl

theorem handle_gesture_pinch_update (self : KinesixBackend) (fc : Int) (scale : ℚ) :
    handle_gesture self (.GesturePinchUpdate fc scale) =
      (if scale < 1 then { self with ongoing_gesture_type := .Pinch .PinchIn }
       else if scale > 1 then { self with ongoing_gesture_type := .Pinch .PinchOut }
       else self, none) := by
  show (if scale < 1
        then { (if scale > 1 then { self with ongoing_gesture_type := .Pinch .PinchOut } else self) with
               ongoing_gesture_type := .Pinch .PinchIn }
        else (if scale > 1 then { self with ongoing_gesture_type := .Pinch .PinchOut } else self),
        (none : Option DelegateCall)) = _
  split_ifs with h1 h2 <;> rfl

theorem handle_gesture_swipe_end_cancelled (self : KinesixBackend) (fc : Int) :
    handle_gesture self (.GestureSwipeEnd fc true) = (self, none) := rfl

theorem handle_gesture_pinch_end_cancelled (self : KinesixBackend) (fc : Int) :
    handle_gesture self (.GesturePinchEnd fc true) = (self, none) := rfl

theorem handle_gesture_swipe_end_state (self : KinesixBackend) (fc : Int) :
    (handle_gesture self (.GestureSwipeEnd fc false)).1 =
      { self with
          ongoing_gesture_type := .Unknown
          input := { self.input with swipe_x_max := 0, swipe_y_max := 0 } } := by
  obtain ⟨ad, l, g, inp⟩ := self
  cases g <;> rfl

theorem handle_gesture_pinch_end_state (self : KinesixBackend) (fc : Int) :
    (handle_gesture self (.GesturePinchEnd fc false)).1 =
      { self with
          ongoing_gesture_type := .Unknown
          input := { self.input with swipe_x_max := 0, swipe_y_max := 0 } } := by
  obtain ⟨ad, l, g, inp⟩ := self
  cases g <;> rfl

theorem processGestures_cons_fst (self : KinesixBackend) (e : Event) (es : List Event) :
    (processGestures self (e :: es)).1 = (processGestures (handle_gesture self e).1 es).1 := rfl

/-! Lemmas about `binary_search_by`. -/

theorem binary_search_loop_not_ok (f : Device → Ordering) (s : List Device)
    (hf : ∀ d ∈ s, f d ≠ .eq) :
    ∀ (fuel left right : Nat), right ≤ s.length →
      ∀ i, binary_search_loop f s fuel left right ≠ .ok i := by
  intro fuel
  induction fuel with
  | zero => intro left right _ i h; exact nomatch h
  | succ n ih =>
      intro left right hr i
      rw [binary_search_loop]
      split
      case isTrue hlr =>
        have hmid : left + (right - left) / 2 < right := by
          have hd2 : (right - left) / 2 < right - left := Nat.div_lt_self (by omega) (by omega)
          omega
        have hlen : left + (right - left) / 2 < s.length := lt_of_lt_of_le hmid hr
        have hmem : s.getD (left + (right - left) / 2) default ∈ s := by
          rw [List.getD_eq_getElem s default hlen]
          exact List.getElem_mem hlen
        split
        case h_1 hfd => exact ih (left + (right - left) / 2 + 1) right hr i
        case h_2 hfd => exact ih left (left + (right - left) / 2) (le_trans hmid.le hr) i
        case h_3 hfd => exact absurd hfd (hf _ hmem)
      case isFalse hlr => intro h; exact nomatch h

theorem binary_search_loop_ok (f : Device → Ordering) (s : List Device) :
    ∀ (fuel left right i : Nat), right ≤ s.length →
      binary_search_loop f s fuel left right = .ok i →
      i < s.length ∧ f (s.getD i default) = .eq := by
  intro fuel
  induction fuel with
  | zero => intro left right i _ h; exact nomatch h
  | succ n ih =>
      intro left right i hr
      rw [binary_search_loop]
      split
      case isTrue hlr =>
        have hmid : left + (right - left) / 2 < right := by
          have hd2 : (right - left) / 2 < right - left := Nat.div_lt_self (by omega) (by omega)
          omega
        split
        case h_1 hfd => exact ih (left + (right - left) / 2 + 1) right i hr
        case h_2 hfd => exact ih left (left + (right - left) / 2) i (le_trans hmid.le hr)
        case h_3 hfd =>
          intro h
          cases h
          exact ⟨lt_of_lt_of_le hmid hr, hfd⟩
      case isFalse hlr => intro h; exact nomatch h

theorem binary_search_by_not_ok (f : Device → Ordering) (s : List Device)
    (hf : ∀ d ∈ s, f d ≠ .eq) (i : Nat) :
    binary_search_by f s ≠ .ok i :=
  binary_search_loop_not_ok f s hf (s.length + 1) 0 s.length (le_refl _) i

theorem binary_search_by_ok (f : Device → Ordering) (s : List Device) (i : Nat)
    (h : binary_search_by f s = .ok i) :
    i < s.length ∧ f (s.getD i default) = .eq :=
  binary_search_loop_ok f s (s.length + 1) 0 s.length i (le_refl _) h

/-! Preservation of `SwipeSticky` by the gesture handlers. -/

theorem classifySwipe_idem (x y : ℚ) (g : GestureType) :
    classifySwipe x y (classifySwipe x y g) = classifySwipe x y g := by
  unfold classifySwipe
  split_ifs <;> rfl

theorem new_sticky : SwipeSticky KinesixBackend.new := by
  intro d hd
  exact nomatch hd

theorem handle_gesture_sticky (self : KinesixBackend) (e : Event)
    (h : SwipeSticky self) : SwipeSticky (handle_gesture self e).1 := by
  cases e with
  | GestureSwipeBegin fc => rw [handle_gesture_swipe_begin]; exact h
  | GesturePinchBegin fc => rw [handle_gesture_pinch_begin]; exact h
  | Other => rw [handle_gesture_other]; exact h
  | GestureSwipeUpdate fc dx dy =>
      rw [handle_gesture_swipe_update]
      intro d hd
      simp only at hd ⊢
      rw [← hd, classifySwipe_idem, hd]
  | GesturePinchUpdate fc scale =>
      rw [handle_gesture_pinch_update]
      intro d hd
      split_ifs at hd ⊢ with h1 h2
      exact h d hd
  | GestureSwipeEnd fc c =>
      cases c with
      | true => rw [handle_gesture_swipe_end_cancelled]; exact h
      | false =>
          rw [handle_gesture_swipe_end_state]
          intro d hd
          exact nomatch hd
  | GesturePinchEnd fc c =>
      cases c with
      | true => rw [handle_gesture_pinch_end_cancelled]; exact h
      | false =>
          rw [handle_gesture_pinch_end_state]
          intro d hd
          exact nomatch hd

theorem processGestures_sticky (es : List Event) :
    ∀ self : KinesixBackend, SwipeSticky self → SwipeSticky (processGestures self es).1 := by
  induction es with
  | nil => intro self h; exact h
  | cons e es ih =>
      intro self h
      rw [processGestures_cons_fst]
      exact ih _ (handle_gesture_sticky self e h)

/-! Claim theorems. -/

/-- C1: the claim states that processing a terminal End event — cancelled or
not — resets the ongoing classification to `Unknown` and the accumulator to
`(0, 0)`.  The code performs the reset only inside the `cancelled == 0`
branch of `handle_gesture`: after Begin(3), Update(dx=20, dy=0),
End(cancelled=true) the classification is still `Swipe(SwipeRight)` and the
accumulator still `(20, 0)`, so the stale state leaks into the next gesture
(a following Begin/End with no updates would dispatch it). -/
theorem cancelled_end_retains_state :
    (processGestures KinesixBackend.new
        [.GestureSwipeBegin 3, .GestureSwipeUpdate 3 20 0,
         .GestureSwipeEnd 3 true]).1.ongoing_gesture_type = .Swipe .SwipeRight ∧
    (processGestures KinesixBackend.new
        [.GestureSwipeBegin 3, .GestureSwipeUpdate 3 20 0,
         .GestureSwipeEnd 3 true]).1.input.swipe_x_max = 20 ∧
    (processGestures KinesixBackend.new
        [.GestureSwipeBegin 3, .GestureSwipeUpdate 3 20 0,
         .GestureSwipeEnd 3 true]).1.input.swipe_y_max = 0 ∧
    (processGestures KinesixBackend.new
        [.GestureSwipeBegin 3, .GestureSwipeUpdate 3 20 0,
         .GestureSwipeEnd 3 true]).2 = [] := by
  refine ⟨?_, ?_, ?_, ?_⟩ <;> decide

/-- C2: processing an End event whose cancelled flag is set invokes neither
the swipe delegate nor the pinch delegate, from any backend state. -/
theorem cancelled_end_no_dispatch :
    ∀ (self : KinesixBackend) (fc : Int),
      (handle_gesture self (.GestureSwipeEnd fc true)).2 = none ∧
      (handle_gesture self (.GesturePinchEnd fc true)).2 = none := by
  intro self fc
  exact ⟨rfl, rfl⟩

/-- C3: every pinch Update re-evaluates the classification from its scale —
`scale > 1` overwrites with `PinchOut`, `scale < 1` overwrites with
`PinchIn`, `scale == 1` leaves it unchanged — and consequently the sequence
Begin(2), Update(scale=1.4), Update(scale=0.9), End(cancelled=false)
dispatches `(PinchIn, 2)`. -/
theorem pinch_update_overwrites :
    (∀ (self : KinesixBackend) (fc : Int) (scale : ℚ),
        (handle_gesture self (.GesturePinchUpdate fc scale)).1.ongoing_gesture_type =
          if scale > 1 then .Pinch .PinchOut
          else if scale < 1 then .Pinch .PinchIn
          else self.ongoing_gesture_type) ∧
    (processGestures KinesixBackend.new
        [.GesturePinchBegin 2, .GesturePinchUpdate 2 (mkRat 14 10),
         .GesturePinchUpdate 2 (mkRat 9 10), .GesturePinchEnd 2 false]).2 =
      [.pinch .PinchIn 2] := by
  constructor
  · intro self fc scale
    rw [handle_gesture_pinch_update]
    split_ifs with h1 h2 <;> first
      | rfl
      | exact absurd (lt_trans h2 h1) (lt_irrefl 1)
  · decide

/-- C4: the claim states that calling `stop_polling` twice after
`start_polling` produces no error.  The first call succeeds (the thread
receives the cancellation and exits, `join` takes the handle), but
`event_poller_thread` is never cleared to `None`, so the second call runs
the body again and `cancelation_token.send(true)` fails — the receiver was
dropped when the poller thread exited — making the `.expect(...)` panic.
The duplicate-join half of the claim does hold (`handle` is `None`), but the
second call errors instead of being a no-op. -/
theorem second_stop_polling_panics :
    stop_polling (some start_polling_thread) =
      .ok (some { handle := none, cancelation_requested := true, receiver_alive := false }) ∧
    stop_polling
        (some { handle := none, cancelation_requested := true, receiver_alive := false }) =
      .error "Failed to set cancelation token for poller thread" :=
  ⟨rfl, rfl⟩

/-- C5 counterexample: with both devices cached (list `[deviceB, deviceA]`,
ascending by path — a possible directory-read order), `set_active_device
deviceA` succeeds but the subsequent `set_active_device deviceB` leaves
`deviceA` active: the comparator `device.path.cmp(&probe.path)` passed to
`binary_search_by` is reversed and the list is not sorted the way that
comparator requires, so the search misses `deviceB` and the call silently
returns. -/
theorem set_active_device_misses_device :
    (set_active_device (set_active_device exampleBackend deviceA) deviceB).input.active_device
        = some deviceA.path ∧
    (set_active_device (set_active_device exampleBackend deviceA) deviceB).input.active_device
        ≠ some deviceB.path ∧
    (set_active_device (set_active_device exampleBackend deviceA) deviceB).active_device
        = some deviceA := by
  refine ⟨?_, ?_, ?_⟩ <;> decide

/-- C5 amended: provided `binary_search_by` with the reversed comparator
actually locates the requested device in the cached list (it may fail to,
since the list is unsorted with respect to that comparator), and the
requested device is not already active, `set_active_device` leaves exactly
one bound handle and it corresponds to the requested device, the previous
binding having been replaced. -/
theorem set_active_device_binds_found_device (self : KinesixBackend) (device : Device) (i : Nat)
    (hactive : ∀ ad : Device, self.active_device = some ad → ad.path ≠ device.path)
    (hfind : binary_search_by (fun probe => pathCmp device.path probe.path)
        self.valid_device_list = .ok i) :
    (set_active_device self device).input.active_device = some device.path ∧
    ∃ d : Device, (set_active_device self device).active_device = some d ∧
      d.path = device.path := by
  have hguard : ¬ self.active_device.map Device.path = some device.path := by
    intro hg
    cases ha : self.active_device with
    | none => rw [ha] at hg; exact nomatch hg
    | some ad =>
        rw [ha] at hg
        simp only [Option.map_some', Option.some.injEq] at hg
        exact hactive ad ha hg
  obtain ⟨hilen, hieq⟩ := binary_search_by_ok _ _ _ hfind
  have hpath : (self.valid_device_list.getD i default).path = device.path :=
    ((pathCmp_eq_iff _ _).mp hieq).symm
  have hget : self.valid_device_list.get? i = some (self.valid_device_list.getD i default) := by
    rw [List.getD_eq_getElem self.valid_device_list default hilen]
    exact List.get?_eq_get hilen
  rw [set_active_device, if_neg hguard, hfind]
  cases hia : self.input.active_device with
  | none =>
      refine ⟨rfl, self.valid_device_list.getD i default, ?_, hpath⟩
      simp only [hia]
      exact hget
  | some p =>
      refine ⟨rfl, self.valid_device_list.getD i default, ?_, hpath⟩
      simp only [hia]
      exact hget

/-- C5 witness: a backend whose list happens to be ordered the way the
reversed comparator requires, with `deviceA` active; activating `deviceB`
succeeds and binds it. -/
theorem set_active_device_binds_found_device_witness :
    (set_active_device
        { exampleBackendActiveA with valid_device_list := [deviceA, deviceB] }
        deviceB).input.active_device = some deviceB.path ∧
    ∃ d : Device,
      (set_active_device
          { exampleBackendActiveA with valid_device_list := [deviceA, deviceB] }
          deviceB).active_device = some d ∧ d.path = deviceB.path :=
  set_active_device_binds_found_device
    { exampleBackendActiveA with valid_device_list := [deviceA, deviceB] }
    deviceB 1
    (by intro ad h hp
        have had : ad = deviceA := by
          have h' := h
          simp only [exampleBackendActiveA, exampleBackend] at h'
          exact (Option.some.injEq _ _).mp h'.symm ▸ rfl
        rw [had] at hp
        exact absurd hp (by decide))
    rfl

/-- C6: in any state reachable from a fresh backend, once the ongoing
classification is a swipe direction, a further swipe Update whose samples are
no larger in magnitude than the recorded same-axis peaks leaves that
direction in place — in particular it is never cleared back to `Unknown`. -/
theorem swipe_direction_sticky (es : List Event) (d : SwipeDirection) (fc : Int) (dx dy : ℚ)
    (hd : (processGestures KinesixBackend.new es).1.ongoing_gesture_type = .Swipe d)
    (hx : |dx| ≤ |(processGestures KinesixBackend.new es).1.input.swipe_x_max|)
    (hy : |dy| ≤ |(processGestures KinesixBackend.new es).1.input.swipe_y_max|) :
    (handle_gesture (processGestures KinesixBackend.new es).1
        (.GestureSwipeUpdate fc dx dy)).1.ongoing_gesture_type = .Swipe d := by
  have hsticky : SwipeSticky (processGestures KinesixBackend.new es).1 :=
    processGestures_sticky es KinesixBackend.new new_sticky
  rw [handle_gesture_swipe_update]
  have hX :
      (if |(processGestures KinesixBackend.new es).1.input.swipe_x_max| < |dx| then dx
       else (processGestures KinesixBackend.new es).1.input.swipe_x_max) =
        (processGestures KinesixBackend.new es).1.input.swipe_x_max :=
    if_neg (not_lt.mpr hx)
  have hY :
      (if |(processGestures KinesixBackend.new es).1.input.swipe_y_max| < |dy| then dy
       else (processGestures KinesixBackend.new es).1.input.swipe_y_max) =
        (processGestures KinesixBackend.new es).1.input.swipe_y_max :=
    if_neg (not_lt.mpr hy)
  show classifySwipe _ _ _ = _
  rw [hX, hY, hd]
  exact hsticky d hd

/-- C6 witness: after Begin(3) and Update(dx=15, dy=0) the classification is
`Swipe SwipeRight`, and a further Update(dx=2, dy=0) — smaller on both axes
than the recorded peaks — keeps it. -/
theorem swipe_direction_sticky_witness :
    (processGestures KinesixBackend.new
        [.GestureSwipeBegin 3, .GestureSwipeUpdate 3 15 0]).1.ongoing_gesture_type =
      .Swipe .SwipeRight ∧
    (handle_gesture
        (processGestures KinesixBackend.new
          [.GestureSwipeBegin 3, .GestureSwipeUpdate 3 15 0]).1
        (.GestureSwipeUpdate 3 2 0)).1.ongoing_gesture_type = .Swipe .SwipeRight :=
  ⟨by decide,
   swipe_direction_sticky [.GestureSwipeBegin 3, .GestureSwipeUpdate 3 15 0]
     .SwipeRight 3 2 0 (by decide) (by decide) (by decide)⟩

/-- C7: over any sequence of swipe Update events (no intervening Begin or End
events), the absolute values of the accumulator peaks `swipe_x_max` and
`swipe_y_max` never decrease, starting from any state. -/
theorem accumulator_monotone :
    ∀ (self : KinesixBackend) (us : List (Int × ℚ × ℚ)),
      |self.input.swipe_x_max| ≤
        |(processGestures self (us.map mkSwipeUpdate)).1.input.swipe_x_max| ∧
      |self.input.swipe_y_max| ≤
        |(processGestures self (us.map mkSwipeUpdate)).1.input.swipe_y_max| := by
  intro self us
  induction us generalizing self with
  | nil => exact ⟨le_refl _, le_refl _⟩
  | cons u us ih =>
      rw [List.map_cons, processGestures_cons_fst]
      refine ⟨le_trans ?_ (ih (handle_gesture self (mkSwipeUpdate u)).1).1,
              le_trans ?_ (ih (handle_gesture self (mkSwipeUpdate u)).1).2⟩
      · rw [mkSwipeUpdate, handle_gesture_swipe_update]
        show |self.input.swipe_x_max| ≤ |if |self.input.swipe_x_max| < |u.2.1| then u.2.1
          else self.input.swipe_x_max|
        split_ifs with h
        · exact le_of_lt h
        · exact le_refl _
      · rw [mkSwipeUpdate, handle_gesture_swipe_update]
        show |self.input.swipe_y_max| ≤ |if |self.input.swipe_y_max| < |u.2.2| then u.2.2
          else self.input.swipe_y_max|
        split_ifs with h
        · exact le_of_lt h
        · exact le_refl _

/-- C8: `set_active_device` with a device whose path is absent from the
cached valid device list returns with the whole backend state unchanged
(no unbind, no bind, active device untouched), and calling it with the
already-active device is a no-op. -/
theorem set_active_device_noop :
    (∀ (self : KinesixBackend) (device : Device),
        (∀ d ∈ self.valid_device_list, d.path ≠ device.path) →
        set_active_device self device = self) ∧
    (∀ (self : KinesixBackend) (device ad : Device),
        self.active_device = some ad → ad.path = device.path →
        set_active_device self device = self) := by
  constructor
  · intro self device hnot
    rw [set_active_device]
    split
    · rfl
    · have hf : ∀ d ∈ self.valid_device_list,
          (fun probe => pathCmp device.path probe.path) d ≠ .eq := by
        intro d hd heq
        exact hnot d hd (((pathCmp_eq_iff _ _).mp heq).symm)
      cases hbs : binary_search_by (fun probe => pathCmp device.path probe.path)
          self.valid_device_list with
      | error j => rfl
      | ok i => exact absurd hbs (binary_search_by_not_ok _ _ hf i)
  · intro self device ad ha hp
    rw [set_active_device, if_pos (by rw [ha, Option.map_some', hp])]

/-- C8 witness: activating `deviceC` (path not in `exampleBackend`'s list)
changes nothing, and re-activating the already-active `deviceA` changes
nothing. -/
theorem set_active_device_noop_witness :
    set_active_device exampleBackend deviceC = exampleBackend ∧
    set_active_device exampleBackendActiveA deviceA = exampleBackendActiveA :=
  ⟨set_active_device_noop.1 exampleBackend deviceC (by decide),
   set_active_device_noop.2 exampleBackendActiveA deviceA deviceA rfl rfl⟩

/-- C9 counterexample: the claim states that an Update arriving with no prior
Begin (classifier nominally in `Idle`) is ignored.  The code has no idle
guard: from the fresh backend state, Update(fingers=3, dx=20, dy=0) changes
both the classification (to `Swipe SwipeRight`) and the accumulator
(to x=20), so it is not ignored. -/
theorem idle_update_not_ignored :
    ¬ ((handle_gesture KinesixBackend.new (.GestureSwipeUpdate 3 20 0)).1.ongoing_gesture_type
          = KinesixBackend.new.ongoing_gesture_type ∧
       (handle_gesture KinesixBackend.new (.GestureSwipeUpdate 3 20 0)).1.input.swipe_x_max
          = KinesixBackend.new.input.swipe_x_max) := by
  decide

/-- C9 amended: an Update without a prior Begin is processed exactly like
any other Update — the handler keeps no idle/started flag, and a Begin
event itself changes nothing — so processing just the Update from the fresh
state yields the same state as processing Begin followed by that Update. -/
theorem idle_update_processed_like_any :
    ∀ (fcB fc : Int) (dx dy : ℚ) (scale : ℚ),
      (processGestures KinesixBackend.new [.GestureSwipeUpdate fc dx dy]).1 =
        (processGestures KinesixBackend.new
          [.GestureSwipeBegin fcB, .GestureSwipeUpdate fc dx dy]).1 ∧
      (processGestures KinesixBackend.new [.GesturePinchUpdate fc scale]).1 =
        (processGestures KinesixBackend.new
          [.GesturePinchBegin fcB, .GesturePinchUpdate fc scale]).1 := by
  intro fcB fc dx dy scale
  exact ⟨rfl, rfl⟩

/-- C10: neither `set_active_device` (with any argument) nor the processing
of any gesture event modifies the cached `valid_device_list`, and gesture
processing also leaves the active-device back-pointer untouched. -/
theorem valid_device_list_frame :
    ∀ (self : KinesixBackend) (device : Device) (e : Event),
      (set_active_device self device).valid_device_list = self.valid_device_list ∧
      (handle_gesture self e).1.valid_device_list = self.valid_device_list ∧
      (handle_gesture self e).1.active_device = self.active_device := by
  intro self device e
  refine ⟨?_, ?_, ?_⟩
  · rw [set_active_device]
    split
    · rfl
    · cases hbs : binary_search_by (fun probe => pathCmp device.path probe.path)
          self.valid_device_list with
      | error j => rfl
      | ok i => cases self.input.active_device <;> rfl
  all_goals
    cases e with
    | GestureSwipeBegin fc => rw [handle_gesture_swipe_begin]
    | GesturePinchBegin fc => rw [handle_gesture_pinch_begin]
    | Other => rw [handle_gesture_other]
    | GestureSwipeUpdate fc dx dy => rw [handle_gesture_swipe_update]
    | GesturePinchUpdate fc scale =>
        rw [handle_gesture_pinch_update]
        split_ifs <;> rfl
    | GestureSwipeEnd fc c =>
        cases c with
        | false => rw [handle_gesture_swipe_end_state]
        | true => rw [handle_gesture_swipe_end_cancelled]
    | GesturePinchEnd fc c =>
        cases c with
        | false => rw [handle_gesture_pinch_end_state]
        | true => rw [handle_gesture_pinch_end_cancelled]

end Kinesix
